import Mathlib

/-!
Shallow embedding of the Atmega_Board_Detector sketch
(src/Atmega_Board_Detector/Atmega_Board_Detector.ino).

Bytes are modelled as Nat values, masked with % 256 or bitwise masks exactly
where the source narrows to the 8-bit byte type, 16-bit unsigned int or
32-bit unsigned long.  The SPI byte transport, the console and the chip being
probed are external collaborators: they appear as function-valued fields of
an Env record (responses to the transport commands the sketch issues).
-/

namespace AtmegaDetector

/-- Protocol constants from the command enum of the sketch. -/
def progamEnable : Nat := 0xAC

def programAcknowledge : Nat := 0x53

def readSignatureByte : Nat := 0x30

def readProgramMemory : Nat := 0x20

def loadExtendedAddressByte : Nat := 0x4D

def ENTER_PROGRAMMING_ATTEMPTS : Nat := 50

/-- Values of the fuse-index enum (lowFuse, highFuse, extFuse, lockByte, calibrationByte). -/
def lowFuse : Nat := 0

def highFuse : Nat := 1

def extFuse : Nat := 2

def lockByte : Nat := 3

def calibrationByte : Nat := 4

def kb : Nat := 1024

def NO_FUSE : Nat := 0xFF

/-- One row of the signatures table (struct signatureType in the source). -/
structure signatureType where
  sig : List Nat
  desc : String
  flashSize : Nat
  baseBootSize : Nat
  pageSize : Nat
  fuseWithBootloaderSize : Nat
  timedWrites : Bool := false
deriving DecidableEq

/-- The compiled-in signatures table, transcribed row for row. -/
def signaturesList : List signatureType :=
  [
    { sig := [0x1E, 0x91, 0x0B], desc := "ATtiny24", flashSize := 2 * kb, baseBootSize := 0, pageSize := 32, fuseWithBootloaderSize := NO_FUSE },
    { sig := [0x1E, 0x92, 0x07], desc := "ATtiny44", flashSize := 4 * kb, baseBootSize := 0, pageSize := 64, fuseWithBootloaderSize := NO_FUSE },
    { sig := [0x1E, 0x93, 0x0C], desc := "ATtiny84", flashSize := 8 * kb, baseBootSize := 0, pageSize := 64, fuseWithBootloaderSize := NO_FUSE },
    { sig := [0x1E, 0x91, 0x08], desc := "ATtiny25", flashSize := 2 * kb, baseBootSize := 0, pageSize := 32, fuseWithBootloaderSize := NO_FUSE },
    { sig := [0x1E, 0x92, 0x06], desc := "ATtiny45", flashSize := 4 * kb, baseBootSize := 0, pageSize := 64, fuseWithBootloaderSize := NO_FUSE },
    { sig := [0x1E, 0x93, 0x0B], desc := "ATtiny85", flashSize := 8 * kb, baseBootSize := 0, pageSize := 64, fuseWithBootloaderSize := NO_FUSE },
    { sig := [0x1E, 0x92, 0x0A], desc := "ATmega48PA", flashSize := 4 * kb, baseBootSize := 0, pageSize := 64, fuseWithBootloaderSize := NO_FUSE },
    { sig := [0x1E, 0x93, 0x0F], desc := "ATmega88PA", flashSize := 8 * kb, baseBootSize := 256, pageSize := 128, fuseWithBootloaderSize := extFuse },
    { sig := [0x1E, 0x94, 0x0B], desc := "ATmega168PA", flashSize := 16 * kb, baseBootSize := 256, pageSize := 128, fuseWithBootloaderSize := extFuse },
    { sig := [0x1E, 0x95, 0x0F], desc := "ATmega328P", flashSize := 32 * kb, baseBootSize := 512, pageSize := 128, fuseWithBootloaderSize := highFuse },
    { sig := [0x1E, 0x95, 0x14], desc := "ATmega328", flashSize := 32 * kb, baseBootSize := 512, pageSize := 128, fuseWithBootloaderSize := highFuse },
    { sig := [0x1E, 0x94, 0x0A], desc := "ATmega164P", flashSize := 16 * kb, baseBootSize := 256, pageSize := 128, fuseWithBootloaderSize := highFuse },
    { sig := [0x1E, 0x95, 0x08], desc := "ATmega324P", flashSize := 32 * kb, baseBootSize := 512, pageSize := 128, fuseWithBootloaderSize := highFuse },
    { sig := [0x1E, 0x96, 0x0A], desc := "ATmega644P", flashSize := 64 * kb, baseBootSize := 1 * kb, pageSize := 256, fuseWithBootloaderSize := highFuse },
    { sig := [0x1E, 0x96, 0x08], desc := "ATmega640", flashSize := 64 * kb, baseBootSize := 1 * kb, pageSize := 256, fuseWithBootloaderSize := highFuse },
    { sig := [0x1E, 0x97, 0x03], desc := "ATmega1280", flashSize := 128 * kb, baseBootSize := 1 * kb, pageSize := 256, fuseWithBootloaderSize := highFuse },
    { sig := [0x1E, 0x97, 0x04], desc := "ATmega1281", flashSize := 128 * kb, baseBootSize := 1 * kb, pageSize := 256, fuseWithBootloaderSize := highFuse },
    { sig := [0x1E, 0x98, 0x01], desc := "ATmega2560", flashSize := 256 * kb, baseBootSize := 1 * kb, pageSize := 256, fuseWithBootloaderSize := highFuse },
    { sig := [0x1E, 0x98, 0x02], desc := "ATmega2561", flashSize := 256 * kb, baseBootSize := 1 * kb, pageSize := 256, fuseWithBootloaderSize := highFuse },
    { sig := [0x1E, 0x93, 0x82], desc := "At90USB82", flashSize := 8 * kb, baseBootSize := 512, pageSize := 128, fuseWithBootloaderSize := highFuse },
    { sig := [0x1E, 0x94, 0x82], desc := "At90USB162", flashSize := 16 * kb, baseBootSize := 512, pageSize := 128, fuseWithBootloaderSize := highFuse },
    { sig := [0x1E, 0x93, 0x89], desc := "ATmega8U2", flashSize := 8 * kb, baseBootSize := 512, pageSize := 128, fuseWithBootloaderSize := highFuse },
    { sig := [0x1E, 0x94, 0x89], desc := "ATmega16U2", flashSize := 16 * kb, baseBootSize := 512, pageSize := 128, fuseWithBootloaderSize := highFuse },
    { sig := [0x1E, 0x95, 0x8A], desc := "ATmega32U2", flashSize := 32 * kb, baseBootSize := 512, pageSize := 128, fuseWithBootloaderSize := highFuse },
    { sig := [0x1E, 0x94, 0x88], desc := "ATmega16U4", flashSize := 16 * kb, baseBootSize := 512, pageSize := 128, fuseWithBootloaderSize := highFuse },
    { sig := [0x1E, 0x95, 0x87], desc := "ATmega32U4", flashSize := 32 * kb, baseBootSize := 512, pageSize := 128, fuseWithBootloaderSize := highFuse },
    { sig := [0x1E, 0x97, 0x05], desc := "ATmega1284P", flashSize := 128 * kb, baseBootSize := 1 * kb, pageSize := 256, fuseWithBootloaderSize := highFuse },
    { sig := [0x1E, 0x91, 0x0A], desc := "ATtiny2313A", flashSize := 2 * kb, baseBootSize := 0, pageSize := 32, fuseWithBootloaderSize := NO_FUSE },
    { sig := [0x1E, 0x92, 0x0D], desc := "ATtiny4313", flashSize := 4 * kb, baseBootSize := 0, pageSize := 64, fuseWithBootloaderSize := NO_FUSE },
    { sig := [0x1E, 0x90, 0x07], desc := "ATtiny13A", flashSize := 1 * kb, baseBootSize := 0, pageSize := 32, fuseWithBootloaderSize := NO_FUSE },
    { sig := [0x1E, 0x93, 0x07], desc := "ATmega8A", flashSize := 8 * kb, baseBootSize := 256, pageSize := 64, fuseWithBootloaderSize := highFuse, timedWrites := true }
  ]

/-- One row of the bootloader MD5 database (struct deviceDatabaseType). -/
structure deviceDatabaseType where
  md5sum : List Nat
  filename : String
deriving DecidableEq

/-- The compiled-in bootloader digest database, transcribed row for row; the
filename field holds the string value of the PROGMEM name each row points at. -/
def deviceDatabaseList : List deviceDatabaseType :=
  [
    { md5sum := [0x0A, 0xAC, 0xF7, 0x16, 0xF4, 0x3C, 0xA2, 0xC9, 0x27, 0x7E, 0x08, 0xB9, 0xD6, 0x90, 0xBC, 0x02], filename := "ATmegaBOOT_168_atmega328" },
    { md5sum := [0x27, 0xEB, 0x87, 0x14, 0x5D, 0x45, 0xD4, 0xD8, 0x41, 0x44, 0x52, 0xCE, 0x0A, 0x2B, 0x8C, 0x5F], filename := "ATmegaBOOT_168_atmega328_pro_8MHz" },
    { md5sum := [0x01, 0x24, 0x13, 0x56, 0x60, 0x4D, 0x91, 0x7E, 0xDC, 0xEE, 0x84, 0xD1, 0x19, 0xEF, 0x91, 0xCE], filename := "ATmegaBOOT_168_atmega1280" },
    { md5sum := [0x14, 0x61, 0xCE, 0xDF, 0x85, 0x46, 0x0D, 0x96, 0xCC, 0x41, 0xCB, 0x01, 0x69, 0x40, 0x28, 0x1A], filename := "ATmegaBOOT_168_diecimila" },
    { md5sum := [0x6A, 0x22, 0x9F, 0xB4, 0x64, 0x37, 0x3F, 0xA3, 0x0C, 0x68, 0x39, 0x1D, 0x6A, 0x97, 0x2C, 0x40], filename := "ATmegaBOOT_168_ng" },
    { md5sum := [0xFF, 0x99, 0xA2, 0xC0, 0xD9, 0xC9, 0xE5, 0x1B, 0x98, 0x7D, 0x9E, 0x56, 0x12, 0xC2, 0xA4, 0xA1], filename := "ATmegaBOOT_168_pro_8MHz" },
    { md5sum := [0x98, 0x6D, 0xCF, 0xBB, 0x55, 0xE1, 0x22, 0x1E, 0xE4, 0x3C, 0xC2, 0x07, 0xB2, 0x2B, 0x46, 0xAE], filename := "ATmegaBOOT" },
    { md5sum := [0x37, 0xC0, 0xFC, 0x90, 0xE2, 0xA0, 0x5D, 0x8F, 0x62, 0xEB, 0xAE, 0x9C, 0x36, 0xC2, 0x24, 0x05], filename := "ATmegaBOOT_168" },
    { md5sum := [0x29, 0x3E, 0xB3, 0xB7, 0x39, 0x84, 0x2D, 0x35, 0xBA, 0x9D, 0x02, 0xF9, 0xC7, 0xF7, 0xC9, 0xD6], filename := "ATmegaBOOT_168_atmega328_bt" },
    { md5sum := [0xFC, 0xAF, 0x05, 0x0E, 0xB4, 0xD7, 0x2D, 0x75, 0x8F, 0x41, 0x8C, 0x85, 0x83, 0x56, 0xAA, 0x35], filename := "LilyPadBOOT_168" },
    { md5sum := [0x55, 0x71, 0xA1, 0x8C, 0x81, 0x3B, 0x9E, 0xD2, 0xE6, 0x3B, 0xC9, 0x3B, 0x9A, 0xB1, 0x79, 0x53], filename := "optiboot_atmega328_IDE_0022" },
    { md5sum := [0x3C, 0x08, 0x90, 0xA1, 0x6A, 0x13, 0xA2, 0xF0, 0xA5, 0x1D, 0x26, 0xEC, 0xF1, 0x4B, 0x0F, 0xB3], filename := "optiboot_atmega328_pro_8MHz" },
    { md5sum := [0xAD, 0xBD, 0xA7, 0x4A, 0x4F, 0xAB, 0xA8, 0x65, 0x34, 0x92, 0xF8, 0xC9, 0xCE, 0x58, 0x7D, 0x78], filename := "optiboot_lilypad" },
    { md5sum := [0x7B, 0x5C, 0xAC, 0x08, 0x2A, 0x0B, 0x2D, 0x45, 0x69, 0x11, 0xA7, 0xA0, 0xAE, 0x65, 0x7F, 0x66], filename := "optiboot_luminet" },
    { md5sum := [0x6A, 0x95, 0x0A, 0xE1, 0xDB, 0x1F, 0x9D, 0xC7, 0x8C, 0xF8, 0xA4, 0x80, 0xB5, 0x1E, 0x54, 0xE1], filename := "optiboot_pro_16MHz" },
    { md5sum := [0x2C, 0x55, 0xB4, 0xB8, 0xB5, 0xC5, 0xCB, 0xC4, 0xD3, 0x36, 0x99, 0xCB, 0x4B, 0x9F, 0xDA, 0xBE], filename := "optiboot_pro_20mhz" },
    { md5sum := [0x1E, 0x35, 0x14, 0x08, 0x1F, 0x65, 0x7F, 0x8C, 0x96, 0x50, 0x69, 0x9F, 0x19, 0x1E, 0x3D, 0xF0], filename := "stk500boot_v2_mega2560" },
    { md5sum := [0xC2, 0x59, 0x71, 0x5F, 0x96, 0x28, 0xE3, 0xAA, 0xB0, 0x69, 0xE2, 0xAF, 0xF0, 0x85, 0xA1, 0x20], filename := "DiskLoader-Leonardo" },
    { md5sum := [0xE4, 0xAF, 0xF6, 0x6B, 0x78, 0xDA, 0xE4, 0x30, 0xFE, 0xB6, 0x52, 0xAF, 0x53, 0x52, 0x18, 0x49], filename := "optiboot_atmega8" },
    { md5sum := [0x3A, 0x89, 0x30, 0x4B, 0x15, 0xF5, 0xBB, 0x11, 0xAA, 0xE6, 0xE6, 0xDC, 0x7C, 0xF5, 0x91, 0x35], filename := "optiboot_atmega168" },
    { md5sum := [0xFB, 0xF4, 0x9B, 0x7B, 0x59, 0x73, 0x7F, 0x65, 0xE8, 0xD0, 0xF8, 0xA5, 0x08, 0x12, 0xE7, 0x9F], filename := "optiboot_atmega328" },
    { md5sum := [0x7F, 0xDF, 0xE1, 0xB2, 0x6F, 0x52, 0x8F, 0xBD, 0x7C, 0xFE, 0x7E, 0xE0, 0x84, 0xC0, 0xA5, 0x6B], filename := "optiboot_atmega328-Mini" },
    { md5sum := [0x31, 0x28, 0x0B, 0x06, 0xAD, 0xB5, 0xA4, 0xC9, 0x2D, 0xEF, 0xB3, 0x69, 0x29, 0x22, 0xEA, 0xBF], filename := "ATmegaBOOT_324P" },
    { md5sum := [0xE8, 0x93, 0x44, 0x43, 0x37, 0xD3, 0x28, 0x3C, 0x7D, 0x9A, 0xEB, 0x84, 0x46, 0xD5, 0x45, 0x42], filename := "ATmegaBOOT_644" },
    { md5sum := [0x51, 0x69, 0x10, 0x40, 0x8F, 0x07, 0x81, 0xC6, 0x48, 0x51, 0x54, 0x5E, 0x96, 0x73, 0xC2, 0xEB], filename := "ATmegaBOOT_644P" },
    { md5sum := [0xB9, 0x49, 0x93, 0x09, 0x49, 0x1A, 0x64, 0x6E, 0xCD, 0x58, 0x47, 0x89, 0xC2, 0xD8, 0xA4, 0x6C], filename := "Mega2560_Original" },
    { md5sum := [0x71, 0xDD, 0xC2, 0x84, 0x64, 0xC4, 0x73, 0x27, 0xD2, 0x33, 0x01, 0x1E, 0xFA, 0xE1, 0x24, 0x4B], filename := "optiboot_atmega1284p" },
    { md5sum := [0x0F, 0x02, 0x31, 0x72, 0x95, 0xC8, 0xF7, 0xFD, 0x1B, 0xB7, 0x07, 0x17, 0x85, 0xA5, 0x66, 0x87], filename := "Ruggeduino" },
    { md5sum := [0x53, 0xE0, 0x2C, 0xBC, 0x87, 0xF5, 0x0B, 0x68, 0x2C, 0x71, 0x13, 0xE0, 0xED, 0x84, 0x05, 0x34], filename := "Leonardo-prod-firmware-2012-04-26" },
    { md5sum := [0x12, 0xAA, 0x80, 0x07, 0x4D, 0x74, 0xE3, 0xDA, 0xBF, 0x2D, 0x25, 0x84, 0x6D, 0x99, 0xF7, 0x20], filename := "atmega2560_bootloader_watchdog_bug_fixed" },
    { md5sum := [0x32, 0x56, 0xC1, 0xD3, 0xAC, 0x78, 0x32, 0x4D, 0x04, 0x6D, 0x3F, 0x6D, 0x01, 0xEC, 0xAE, 0x09], filename := "Esplora" },
    { md5sum := [0x39, 0xCC, 0x80, 0xD6, 0xDE, 0xA2, 0xC4, 0x91, 0x6F, 0xBC, 0xE8, 0xDD, 0x70, 0xF2, 0xA2, 0x33], filename := "Sanguino_ATmegaBOOT_644P" },
    { md5sum := [0x60, 0x49, 0xC6, 0x0A, 0xE6, 0x31, 0x5C, 0xC1, 0xBA, 0xD7, 0x24, 0xEF, 0x8B, 0x6D, 0xE6, 0xD0], filename := "Sanguino_ATmegaBOOT_168_atmega644p" },
    { md5sum := [0xC1, 0x17, 0xE3, 0x5E, 0x9C, 0x43, 0x66, 0x5F, 0x1E, 0x4C, 0x41, 0x95, 0x44, 0x60, 0x47, 0xD5], filename := "Sanguino_ATmegaBOOT_168_atmega1284p" },
    { md5sum := [0x27, 0x4B, 0x68, 0x8A, 0x8A, 0xA2, 0x4C, 0xE7, 0x30, 0x7F, 0x97, 0x37, 0x87, 0x16, 0x4E, 0x21], filename := "Sanguino_ATmegaBOOT_168_atmega1284p_8m" },
    { md5sum := [0xD8, 0x8C, 0x70, 0x6D, 0xFE, 0x1F, 0xDC, 0x38, 0x82, 0x1E, 0xCE, 0xAE, 0x23, 0xB2, 0xE6, 0xE7], filename := "Arduino-dfu-usbserial-atmega16u2-Uno-Rev3" }
  ]

/-- Initial value of the global lastAddressMSB (declared as byte lastAddressMSB = 0). -/
def lastAddressMSBInit : Nat := 0

/-- Initial value of the global currentSignature: a zero-initialized global struct. -/
def initialSignature : signatureType :=
  { sig := [0, 0, 0], desc := "", flashSize := 0, baseBootSize := 0, pageSize := 0,
    fuseWithBootloaderSize := 0, timedWrites := false }

/-- One readFlash call: addr is split into the extended address byte
(bits 16 and up, masked to a byte) and a word address; the extended byte is
loaded only when it differs from the cached lastAddressMSB.  Returns the byte
read, the new lastAddressMSB, and whether a loadExtendedAddressByte
transaction was issued.  The flash argument is the external target chip,
giving the byte the transport returns for the linear address. -/
def readFlash (flash : Nat → Nat) (st addr : Nat) : Nat × Nat × Bool :=
  let MSB := (addr >>> 16) &&& 0xFF
  (flash addr % 256, MSB, MSB != st)

/-- A run of readFlash calls at consecutive ascending addresses, as done by the
hex-dump loops of readBootloader and readProgram.  Returns the bytes read, the
final lastAddressMSB, and how many loadExtendedAddressByte transactions were
issued during the run. -/
def readSeq (flash : Nat → Nat) : Nat → Nat → Nat → List Nat × Nat × Nat
  | st, _, 0 => ([], st, 0)
  | st, addr, len + 1 =>
    let r := readFlash flash st addr
    let rest := readSeq flash r.2.1 (addr + 1) len
    (r.1 :: rest.1, rest.2.1, (if r.2.2 then 1 else 0) + rest.2.2)

/-- The MD5 streaming loop of readBootloader: while (len--) it reads one byte,
clears allFF when the byte is not 0xFF, and feeds the byte to md5_update.
Returns the absorbed byte stream (the md5 context contents), the allFF flag,
and the final lastAddressMSB. -/
def digestLoop (flash : Nat → Nat) : Nat → Nat → Nat → List Nat × Bool × Nat
  | st, _, 0 => ([], true, st)
  | st, addr, len + 1 =>
    let r := readFlash flash st addr
    let rest := digestLoop flash r.2.1 (addr + 1) len
    (r.1 :: rest.1, (r.1 == 0xFF) && rest.2.1, rest.2.2)

/-- Result of the digest pass: the 16-byte digest and the all-0xFF flag. -/
structure DigestResult where
  digest : List Nat
  allErased : Bool
deriving DecidableEq

/-- Modelled from the spec: the MD5 implementation lives in md5.h, which is not
among the sources of this repository; the spec treats the digest as a
fixed-width function of the streamed bytes (md5_starts, md5_update per byte,
md5_finish), so the finish step is passed in as a function of the absorbed
byte stream. -/
def digestRegion (finish : List Nat → List Nat) (flash : Nat → Nat) (st addr len : Nat) :
    DigestResult × Nat :=
  let r := digestLoop flash st addr len
  ({ digest := finish r.1, allErased := r.2.1 }, r.2.2)

/-- The bit macro of Arduino. -/
def bit (n : Nat) : Nat := 1 <<< n

/-- Bootloader-in-use flag printed by readBootloader: (whichFuse and bit 0) == 0. -/
def bootloaderInUse (whichFuse : Nat) : Bool := whichFuse &&& bit 0 == 0

/-- EEPROM-preserved flag printed by readBootloader: (hFuse and bit 3) == 0. -/
def eepromPreserved (hFuse : Nat) : Bool := hFuse &&& bit 3 == 0

/-- Watchdog-always-on flag printed by readBootloader: (hFuse and bit 4) == 0. -/
def watchdogAlwaysOn (hFuse : Nat) : Bool := hFuse &&& bit 4 == 0

/-- The bootloader size multiplier switch of readBootloader on
(whichFuse >> 1) & 3: cases 0, 1, 2, 3 give factors 8, 4, 2, 1. -/
def bootMultiplier (whichFuse : Nat) : Nat :=
  match (whichFuse >>> 1) &&& 3 with
  | 0 => 8
  | 1 => 4
  | 2 => 2
  | _ => 1

/-- The fuse bytes read by getFuseBytes. -/
structure FuseSnapshot where
  low : Nat
  high : Nat
  ext : Nat
  lock : Nat
  calibration : Nat
deriving DecidableEq

/-- The switch of readBootloader on fuseWithBootloaderSize: lowFuse, highFuse
and extFuse pick the corresponding fuse byte, any other value (NO_FUSE in the
table) takes the default branch and aborts bootloader analysis. -/
def selectBootFuse (fusenumber : Nat) (f : FuseSnapshot) : Option Nat :=
  if fusenumber = lowFuse then some f.low
  else if fusenumber = highFuse then some f.high
  else if fusenumber = extFuse then some f.ext
  else none

/-- The bootloader region readBootloader works out: start address and length. -/
structure BootRegion where
  startAddress : Nat
  length : Nat
deriving DecidableEq

/-- The region geometry computation of readBootloader: none when
baseBootSize == 0 or the fuse switch takes its default branch; otherwise
len = baseBootSize times the decoded multiplier (a 16-bit unsigned int) and
addr = flashSize - len (32-bit unsigned long arithmetic). -/
def locateBootloader (cur : signatureType) (f : FuseSnapshot) : Option BootRegion :=
  if cur.baseBootSize = 0 then none
  else
    match selectBootFuse cur.fuseWithBootloaderSize f with
    | none => none
    | some whichFuse =>
      let len := (cur.baseBootSize * bootMultiplier whichFuse) % 65536
      let addr := (cur.flashSize + 4294967296 - len) % 4294967296
      some { startAddress := addr, length := len }

/-- The selected bootloader fuse byte, defaulting to 0 when there is none. -/
def bootFuseValue (cur : signatureType) (f : FuseSnapshot) : Nat :=
  (selectBootFuse cur.fuseWithBootloaderSize f).getD 0

/-- The loop body of getSignature: walk the table keeping the running copy of
currentSignature; on the first 3-byte match return its index, otherwise fall
out with foundSig = -1 and currentSignature holding the last row copied. -/
def getSignatureGo (sig : List Nat) : Nat → signatureType → List signatureType →
    Int × signatureType
  | _, cur, [] => (-1, cur)
  | j, _, s :: rest =>
    if sig == s.sig then ((j : Int), s) else getSignatureGo sig (j + 1) s rest

/-- getSignature on a 3-byte signature: the resulting (foundSig, currentSignature). -/
def getSignature (sig : List Nat) : Int × signatureType :=
  getSignatureGo sig 0 initialSignature signaturesList

/-- The bootloader database scan of readBootloader: first row whose 16-byte
md5sum equals the computed digest wins. -/
def bootLookupGo (md5sum : List Nat) : List deviceDatabaseType → Option String
  | [] => none
  | e :: rest => if e.md5sum == md5sum then some e.filename else bootLookupGo md5sum rest

/-- Console events the sketch emits, one constructor per report line group. -/
inductive Event where
  | sigReport (sig : List Nat)
  | processor (name : String) (flashSize : Nat)
  | unrecognized
  | fuseReport (low high ext lock calibration : Nat)
  | noBootSupport
  | noBootFuse
  | bootFlags (inUse eeprom watchdog : Bool)
  | bootRegion (startAddress len : Nat)
  | hexDump (bytes : List Nat)
  | digestReport (digest : List Nat)
  | noBootloaderAllFF
  | bootName (name : String)
  | md5Unknown
  | programDump (bytes : List Nat)
deriving DecidableEq

/-- Whether an event is emitted by the bootloader analysis stage (readBootloader). -/
def Event.fromBootloaderStage : Event → Bool
  | .noBootSupport => true
  | .noBootFuse => true
  | .bootFlags _ _ _ => true
  | .bootRegion _ _ => true
  | .hexDump _ => true
  | .digestReport _ => true
  | .noBootloaderAllFF => true
  | .bootName _ => true
  | .md5Unknown => true
  | _ => false

/-- The branch of readBootloader after the digest is printed: allFF
short-circuits to the no-bootloader report, otherwise the database is scanned
and a miss reports the digest as unknown. -/
def identifyBootloader (allFF : Bool) (md5sum : List Nat) : List Event :=
  if allFF then [Event.noBootloaderAllFF]
  else
    match bootLookupGo md5sum deviceDatabaseList with
    | some name => [Event.bootName name]
    | none => [Event.md5Unknown]

/-- The tail of readBootloader from the digest printout on: the digest is
reported unconditionally, then identification runs. -/
def digestSectionEvents (allFF : Bool) (md5sum : List Nat) : List Event :=
  Event.digestReport md5sum :: identifyBootloader allFF md5sum

/-- The external world of one run: transport responses for the programming
enable attempts (third echoed byte of attempt k), the signature bytes, the
five fuse bytes, the flash contents, and the digest function (md5.h is not
among the sources, see digestRegion). -/
structure Env where
  resp : Nat → Nat
  sigResp : Nat → Nat
  lowF : Nat
  highF : Nat
  extF : Nat
  lockF : Nat
  calF : Nat
  flash : Nat → Nat
  md5 : List Nat → List Nat

/-- The three signature bytes getSignature reads. -/
def readSig (env : Env) : List Nat :=
  [env.sigResp 0 % 256, env.sigResp 1 % 256, env.sigResp 2 % 256]

/-- The fuse bytes getFuseBytes and readBootloader read. -/
def getFuseBytes (env : Env) : FuseSnapshot :=
  { low := env.lowF % 256, high := env.highF % 256, ext := env.extF % 256,
    lock := env.lockF % 256, calibration := env.calF % 256 }

/-- The do-while retry loop of startProgramming: attempt number timeout issues
the enable command and checks the third echoed byte; on a mismatch the loop
gives up once timeout reaches ENTER_PROGRAMMING_ATTEMPTS (post-increment
check) else retries.  Returns the outcome and the number of enable commands
issued.  The fuel argument only bounds the recursion; it is never exhausted
when called with ENTER_PROGRAMMING_ATTEMPTS + 1. -/
def startProgrammingLoop (resp : Nat → Nat) : Nat → Nat → Bool × Nat
  | _, 0 => (false, 0)
  | timeout, fuel + 1 =>
    let confirm := resp timeout % 256
    if confirm = programAcknowledge then (true, 1)
    else if ENTER_PROGRAMMING_ATTEMPTS ≤ timeout then (false, 1)
    else
      let r := startProgrammingLoop resp (timeout + 1) fuel
      (r.1, r.2 + 1)

/-- startProgramming: whether programming mode was entered. -/
def startProgramming (resp : Nat → Nat) : Bool :=
  (startProgrammingLoop resp 0 (ENTER_PROGRAMMING_ATTEMPTS + 1)).1

/-- The readBootloader procedure: events emitted and the final lastAddressMSB. -/
def readBootloader (cur : signatureType) (env : Env) (st : Nat) : List Event × Nat :=
  if cur.baseBootSize = 0 then ([Event.noBootSupport], st)
  else
    let f := getFuseBytes env
    match selectBootFuse cur.fuseWithBootloaderSize f with
    | none => ([Event.noBootFuse], st)
    | some whichFuse =>
      let hFuse := f.high
      let len := (cur.baseBootSize * bootMultiplier whichFuse) % 65536
      let addr := (cur.flashSize + 4294967296 - len) % 4294967296
      let dump := readSeq env.flash st addr len
      let dr := digestRegion env.md5 env.flash dump.2.1 addr len
      ([Event.bootFlags (bootloaderInUse whichFuse) (eepromPreserved hFuse)
          (watchdogAlwaysOn hFuse),
        Event.bootRegion addr len,
        Event.hexDump dump.1]
        ++ digestSectionEvents (dr.1.allErased) (dr.1.digest), dr.2)

/-- The readProgram procedure: dump of the first 256 bytes of flash. -/
def readProgram (env : Env) (st : Nat) : List Nat × Nat × Nat :=
  readSeq env.flash st 0 256

/-- The setup routine: enter programming mode, then read the signature, the
fuse bytes, the bootloader region if a signature was matched, and the first
256 bytes of program memory; on entry failure nothing else runs. -/
def setupRun (env : Env) : List Event :=
  if startProgramming env.resp then
    let sig := readSig env
    let scanned := getSignature sig
    let sigEvents := Event.sigReport sig ::
      (if scanned.1 = -1 then [Event.unrecognized]
       else [Event.processor scanned.2.desc scanned.2.flashSize])
    let f := getFuseBytes env
    let fuseEvents := [Event.fuseReport f.low f.high f.ext f.lock f.calibration]
    let bootR := if scanned.1 ≠ -1 then readBootloader scanned.2 env lastAddressMSBInit
      else ([], lastAddressMSBInit)
    let progR := readProgram env bootR.2
    sigEvents ++ fuseEvents ++ bootR.1 ++ [Event.programDump progR.1]
  else []

/-- An all-zero environment: its transport never echoes the acknowledge byte. -/
def envZero : Env :=
  { resp := fun _ => 0, sigResp := fun _ => 0, lowF := 0, highF := 0, extF := 0,
    lockF := 0, calF := 0, flash := fun _ => 0, md5 := fun l => l }

/-- An environment that acknowledges on the first attempt and reads zero
bytes everywhere else. -/
def envAck : Env :=
  { resp := fun _ => 0x53, sigResp := fun _ => 0, lowF := 0, highF := 0, extF := 0,
    lockF := 0, calF := 0, flash := fun _ => 0, md5 := fun l => l }

/-- The ATmega328P row of the signatures table (index 9). -/
def atmega328P : signatureType :=
  { sig := [0x1E, 0x95, 0x0F], desc := "ATmega328P", flashSize := 32 * kb,
    baseBootSize := 512, pageSize := 128, fuseWithBootloaderSize := highFuse }

/-- The ATmega8A row of the signatures table (its last row). -/
def atmega8A : signatureType :=
  { sig := [0x1E, 0x93, 0x07], desc := "ATmega8A", flashSize := 8 * kb,
    baseBootSize := 256, pageSize := 64, fuseWithBootloaderSize := highFuse,
    timedWrites := true }

/-! Theorems. -/

/-- A byte mask: anding with 255 is reduction mod 256. -/
theorem and255_eq (a : Nat) : a &&& 255 = a % 256 := by
  have h : (255 : Nat) = 2 ^ 8 - 1 := by norm_num
  rw [h, Nat.and_pow_two_sub_one_eq_mod]

/-- A run of consecutive reads whose addresses all have the cached most
significant byte issues no loadExtendedAddressByte transaction and leaves the
cache unchanged. -/
theorem readSeq_count_eq_zero (flash : Nat → Nat) (st : Nat) :
    ∀ len addr : Nat, (∀ i, i < len → ((addr + i) >>> 16) &&& 0xFF = st) →
      (readSeq flash st addr len).2.1 = st ∧ (readSeq flash st addr len).2.2 = 0 := by
  intro len
  induction len with
  | zero => intro addr _; simp [readSeq]
  | succ n ih =>
    intro addr h
    have h0 : (addr >>> 16) &&& 0xFF = st := by simpa using h 0 n.succ_pos
    have hrest := ih (addr + 1) (fun i hi => by
      have e : addr + 1 + i = addr + (i + 1) := by omega
      rw [e]; exact h (i + 1) (by omega))
    simp [readSeq, readFlash, h0, hrest.1, hrest.2]

/-- C1 (amended): readFlash issues a loadExtendedAddressByte transaction
exactly when the most significant address byte, bits 16 and up of the
address, differs from the cached lastAddressMSB.  Because the cache is
initialized to 0, the ascending reads of 0x0000 through 0xFFFF from the
initial session state issue exactly zero such transactions, and a subsequent
read at 0x10000 after the one at 0xFFFF issues the first one. -/
theorem readFlash_extended_address (flash flash2 flash3 : Nat → Nat) (st addr : Nat) :
    ((readFlash flash st addr).2.2 = true ↔ addr / 65536 % 256 ≠ st)
    ∧ (readSeq flash2 lastAddressMSBInit 0 65536).2.2 = 0
    ∧ (readSeq flash3 (readSeq flash3 lastAddressMSBInit 0 65536).2.1 65536 1).2.2 = 1 := by
  have hzero : ∀ fl : Nat → Nat,
      (readSeq fl 0 0 65536).2.1 = 0 ∧ (readSeq fl 0 0 65536).2.2 = 0 := by
    intro fl
    refine readSeq_count_eq_zero fl 0 65536 0 (fun i hi => ?_)
    have h1 : i >>> 16 = 0 := by
      rw [Nat.shiftRight_eq_div_pow]
      exact Nat.div_eq_of_lt (by omega)
    simp [h1]
  have hone : ∀ (fl : Nat → Nat) (s a : Nat),
      (readSeq fl s a 1).2.2 = if ((a >>> 16) &&& 0xFF) != s then 1 else 0 := by
    intro fl s a
    simp [readSeq, readFlash]
  refine ⟨?_, ?_, ?_⟩
  · have hmask : (addr >>> 16) &&& 0xFF = addr / 65536 % 256 := by
      rw [Nat.shiftRight_eq_div_pow, and255_eq]
    simp [readFlash, hmask]
  · simpa [lastAddressMSBInit] using (hzero flash2).2
  · have hst := (hzero flash3).1
    simp only [lastAddressMSBInit]
    rw [hst]
    rw [hone]
    decide

/-- C1 counterexample: from the initial session state the ascending reads of
0x0000 through 0xFFFF issue zero loadExtendedAddressByte transactions, not
exactly one. -/
theorem readFlash_scenario_counterexample :
    (readSeq (fun _ => 0) lastAddressMSBInit 0 65536).2.2 ≠ 1 := by
  have h := readSeq_count_eq_zero (fun _ => 0) 0 65536 0 (fun i hi => by
    have h1 : i >>> 16 = 0 := by
      rw [Nat.shiftRight_eq_div_pow]
      exact Nat.div_eq_of_lt (by omega)
    simp [h1])
  simp [lastAddressMSBInit, h.2]

/-- When no attempt ever echoes the acknowledge byte, the entry loop runs its
full budget of attempts and reports failure. -/
theorem startProgrammingLoop_never_ack (resp : Nat → Nat)
    (h : ∀ k, resp k % 256 ≠ programAcknowledge) :
    ∀ fuel timeout : Nat, timeout + fuel = ENTER_PROGRAMMING_ATTEMPTS + 1 →
      startProgrammingLoop resp timeout fuel = (false, fuel) := by
  intro fuel
  induction fuel with
  | zero => intro timeout _; rfl
  | succ n ih =>
    intro timeout hft
    by_cases hto : ENTER_PROGRAMMING_ATTEMPTS ≤ timeout
    · have hn : n = 0 := by
        simp only [ENTER_PROGRAMMING_ATTEMPTS] at hft hto
        omega
      subst hn
      simp [startProgrammingLoop, h timeout, hto]
    · have hrec := ih (timeout + 1) (by omega)
      simp [startProgrammingLoop, h timeout, hto, hrec]

/-- C2: if no enable attempt ever echoes programAcknowledge as the third byte,
startProgramming reports failure after issuing its full budget of
ENTER_PROGRAMMING_ATTEMPTS + 1 enable commands (the initial attempt plus 50
retries), and the whole run emits no event at all: no signature read, no fuse
read, no bootloader analysis. -/
theorem entry_timeout_skips_run (env : Env)
    (h : ∀ k, env.resp k % 256 ≠ programAcknowledge) :
    startProgramming env.resp = false
    ∧ (startProgrammingLoop env.resp 0 (ENTER_PROGRAMMING_ATTEMPTS + 1)).2
        = ENTER_PROGRAMMING_ATTEMPTS + 1
    ∧ setupRun env = [] := by
  have hl := startProgrammingLoop_never_ack env.resp h (ENTER_PROGRAMMING_ATTEMPTS + 1) 0
    (by omega)
  refine ⟨?_, ?_, ?_⟩
  · simp [startProgramming, hl]
  · simp [hl]
  · simp [setupRun, startProgramming, hl]

/-- C2 witness: a transport that always answers 0 never acknowledges, so the
run fails to start and emits nothing. -/
theorem entry_timeout_witness :
    startProgramming (fun _ => 0) = false ∧ setupRun envZero = [] := by
  have h := entry_timeout_skips_run envZero (fun _ => by simp [envZero, programAcknowledge])
  exact ⟨h.1, h.2.2⟩

set_option maxRecDepth 10000 in
/-- C4: for every fuse byte value, the two bits above the LSB select the
bootloader size multiplier: selector values 0, 1, 2, 3 give 8, 4, 2, 1. -/
theorem boot_multiplier_decodes (w : Fin 256) :
    bootMultiplier w.val = [8, 4, 2, 1].getD ((w.val >>> 1) &&& 3) 0 := by
  revert w
  decide

/-- Testing a single-bit mask for zero is the negation of the bit itself. -/
theorem flag_bit_eq (x i : Nat) : (x &&& bit i == 0) = !(Nat.testBit x i) := by
  have h1 : bit i = 2 ^ i := by simp [bit, Nat.shiftLeft_eq]
  rw [h1, Nat.and_two_pow]
  cases hx : Nat.testBit x i
  · simp
  · have h2 : (2 : Nat) ^ i ≠ 0 := Nat.pos_iff_ne_zero.mp (Nat.two_pow_pos i)
    simp [h2]

/-- C8: for every selected fuse byte and high fuse byte, the bootloader-in-use
flag is true exactly when bit 0 of the selected fuse byte is clear, the
EEPROM-preserved flag exactly when bit 3 of the high fuse byte is clear, and
the watchdog-always-on flag exactly when bit 4 of the high fuse byte is
clear. -/
theorem fuse_flag_bits (w h : Fin 256) :
    bootloaderInUse w.val = !(Nat.testBit w.val 0)
    ∧ eepromPreserved h.val = !(Nat.testBit h.val 3)
    ∧ watchdogAlwaysOn h.val = !(Nat.testBit h.val 4) :=
  ⟨flag_bit_eq w.val 0, flag_bit_eq h.val 3, flag_bit_eq h.val 4⟩

set_option maxRecDepth 10000 in
/-- C9: the end-to-end ATmega328P scenario: signature 1E 95 0F matches table
row 9 with the stated descriptor fields, and with high fuse 0xDE the
bootloader is enabled, the size selector bits are 3 so the multiplier is 1,
and the located region is 512 bytes starting at 32256. -/
theorem atmega328P_end_to_end :
    getSignature [0x1E, 0x95, 0x0F] = (9, atmega328P)
    ∧ atmega328P.desc = "ATmega328P"
    ∧ atmega328P.flashSize = 32768
    ∧ atmega328P.baseBootSize = 512
    ∧ atmega328P.pageSize = 128
    ∧ atmega328P.fuseWithBootloaderSize = highFuse
    ∧ bootloaderInUse 0xDE = true
    ∧ (0xDE >>> 1) &&& 3 = 3
    ∧ bootMultiplier 0xDE = 1
    ∧ locateBootloader atmega328P
        { low := 0, high := 0xDE, ext := 0, lock := 0, calibration := 0 }
        = some { startAddress := 32256, length := 512 } := by
  decide

/-- The digest loop absorbs exactly the bytes of the region in ascending
address order. -/
theorem digestLoop_stream (flash : Nat → Nat) :
    ∀ len addr st : Nat,
      (digestLoop flash st addr len).1
        = (List.range len).map (fun i => flash (addr + i) % 256) := by
  intro len
  induction len with
  | zero => intro addr st; simp [digestLoop]
  | succ n ih =>
    intro addr st
    simp only [digestLoop, readFlash]
    rw [List.range_succ_eq_map, List.map_cons, List.map_map, ih (addr + 1), Nat.add_zero]
    refine congrArg (List.cons (flash addr % 256)) (List.map_congr_left fun a _ => ?_)
    have e : addr + 1 + a = addr + Nat.succ a := by omega
    simp [Function.comp, e]

/-- The allFF flag of the digest loop is the all-bytes-are-0xFF check over
the absorbed stream. -/
theorem digestLoop_allFF (flash : Nat → Nat) :
    ∀ len addr st : Nat,
      (digestLoop flash st addr len).2.1
        = ((digestLoop flash st addr len).1.all fun b => b == 0xFF) := by
  intro len
  induction len with
  | zero => intro addr st; simp [digestLoop]
  | succ n ih =>
    intro addr st
    simp [digestLoop, readFlash, ih (addr + 1)]

/-- Over an all-0xFF flash the digest loop absorbs a replicate stream. -/
theorem digestLoop_const_FF (st addr len : Nat) :
    (digestLoop (fun _ => 0xFF) st addr len).1 = List.replicate len 0xFF := by
  rw [digestLoop_stream]
  simp

/-- Over an all-0xFF flash the digest loop reports allFF. -/
theorem digestLoop_const_allFF (st addr len : Nat) :
    (digestLoop (fun _ => 0xFF) st addr len).2.1 = true := by
  rw [digestLoop_allFF, digestLoop_const_FF]
  simp [List.all_eq_true, List.mem_replicate]

/-- C5: the digest pass absorbs exactly len bytes, namely the bytes of the
region in ascending address order with no early exit; its allFF flag is true
exactly when every absorbed byte equals 0xFF; and over an all-0xFF region of
length len the result is the digest of len repetitions of 0xFF together with
allErased = true, for every digest function. -/
theorem digest_pass_full_region (flash : Nat → Nat) (finish : List Nat → List Nat)
    (st addr len st2 addr2 : Nat) :
    (digestLoop flash st addr len).1 = (List.range len).map (fun i => flash (addr + i) % 256)
    ∧ (digestLoop flash st addr len).1.length = len
    ∧ (digestLoop flash st addr len).2.1
        = ((digestLoop flash st addr len).1.all fun b => b == 0xFF)
    ∧ (digestRegion finish (fun _ => 0xFF) st2 addr2 len).1
        = { digest := finish (List.replicate len 0xFF), allErased := true } := by
  refine ⟨digestLoop_stream flash len addr st, ?_, digestLoop_allFF flash len addr st, ?_⟩
  · rw [digestLoop_stream]
    simp
  · simp [digestRegion, digestLoop_const_FF, digestLoop_const_allFF]

/-- The four possible outcomes of the bootloader size multiplier switch. -/
theorem bootMultiplier_cases (w : Nat) :
    bootMultiplier w = 8 ∨ bootMultiplier w = 4 ∨ bootMultiplier w = 2
      ∨ bootMultiplier w = 1 := by
  unfold bootMultiplier
  split <;> simp

set_option maxRecDepth 10000 in
/-- Side facts holding for every signature table row: the bootloader fuse
selector is one of the four legal values, eight times the base bootloader
size fits a 16-bit unsigned int and the flash size, and the flash size fits
an unsigned long. -/
theorem signatures_side : ∀ s ∈ signaturesList,
    (s.fuseWithBootloaderSize = lowFuse ∨ s.fuseWithBootloaderSize = highFuse
      ∨ s.fuseWithBootloaderSize = extFuse ∨ s.fuseWithBootloaderSize = NO_FUSE)
    ∧ s.baseBootSize * 8 < 65536 ∧ s.baseBootSize * 8 ≤ s.flashSize
    ∧ s.flashSize < 4294967296 := by
  decide

/-- When the fuse switch selects a byte, locateBootloader yields the region
whose length is baseBootSize times the decoded multiplier and whose start is
flashSize minus that length, the 16-bit and 32-bit reductions being inert
under the given bounds. -/
theorem locateBootloader_some (s : signatureType) (f : FuseSnapshot) (w : Nat)
    (hz : s.baseBootSize ≠ 0)
    (hsel : selectBootFuse s.fuseWithBootloaderSize f = some w)
    (hb1 : s.baseBootSize * 8 < 65536) (hb2 : s.baseBootSize * 8 ≤ s.flashSize)
    (hb3 : s.flashSize < 4294967296) :
    locateBootloader s f
      = some { startAddress := s.flashSize - s.baseBootSize * bootMultiplier w,
               length := s.baseBootSize * bootMultiplier w }
    ∧ s.baseBootSize * bootMultiplier w ≤ s.flashSize := by
  have hm8 : bootMultiplier w ≤ 8 := by
    rcases bootMultiplier_cases w with h | h | h | h <;> omega
  have hmul : s.baseBootSize * bootMultiplier w ≤ s.baseBootSize * 8 :=
    Nat.mul_le_mul_left _ hm8
  have hlen : s.baseBootSize * bootMultiplier w % 65536
      = s.baseBootSize * bootMultiplier w := Nat.mod_eq_of_lt (by omega)
  refine ⟨?_, by omega⟩
  unfold locateBootloader
  rw [if_neg hz, hsel]
  dsimp only
  rw [hlen]
  simp only [Option.some.injEq, BootRegion.mk.injEq]
  exact ⟨by omega, by trivial⟩

/-- One case of the region specification: a nonzero base size with a selected
fuse byte yields a region satisfying the C3 equalities. -/
theorem locate_case_some (s : signatureType) (f : FuseSnapshot) (w : Nat)
    (hz : s.baseBootSize ≠ 0) (hnf : s.fuseWithBootloaderSize ≠ NO_FUSE)
    (hsel : selectBootFuse s.fuseWithBootloaderSize f = some w)
    (hb1 : s.baseBootSize * 8 < 65536) (hb2 : s.baseBootSize * 8 ≤ s.flashSize)
    (hb3 : s.flashSize < 4294967296) :
    (locateBootloader s f = none
      ↔ s.baseBootSize = 0 ∨ s.fuseWithBootloaderSize = NO_FUSE)
    ∧ (Option.all (fun r => (r.startAddress + r.length == s.flashSize)
        && (r.length == s.baseBootSize * bootMultiplier (bootFuseValue s f))
        && (r.startAddress == s.flashSize - r.length)) (locateBootloader s f)) = true := by
  obtain ⟨hsome, hle⟩ := locateBootloader_some s f w hz hsel hb1 hb2 hb3
  have hbv : bootFuseValue s f = w := by simp [bootFuseValue, hsel]
  constructor
  · rw [hsome]
    constructor
    · intro hc; exact absurd hc (by simp)
    · rintro (hc | hc)
      · exact absurd hc hz
      · exact absurd hc hnf
  · rw [hsome]
    simp only [Option.all, hbv, Bool.and_eq_true, beq_iff_eq]
    exact ⟨⟨by omega, by trivial⟩, by trivial⟩

set_option maxRecDepth 10000 in
/-- C3: for every signature table row and every fuse snapshot, the locator
yields no region exactly when baseBootSize is 0 or the bootloader fuse
selector is the NO_FUSE sentinel; in every other case the computed region has
length baseBootSize times the decoded multiplier, start address flashSize
minus length, and start address plus length equal to flashSize. -/
theorem locate_region_spec (s : signatureType) (hs : s ∈ signaturesList) (f : FuseSnapshot) :
    (locateBootloader s f = none
      ↔ s.baseBootSize = 0 ∨ s.fuseWithBootloaderSize = NO_FUSE)
    ∧ (Option.all (fun r => (r.startAddress + r.length == s.flashSize)
        && (r.length == s.baseBootSize * bootMultiplier (bootFuseValue s f))
        && (r.startAddress == s.flashSize - r.length)) (locateBootloader s f)) = true := by
  obtain ⟨hsel4, hb1, hb2, hb3⟩ := signatures_side s hs
  by_cases hz : s.baseBootSize = 0
  · have hnone : locateBootloader s f = none := by simp [locateBootloader, hz]
    rw [hnone]
    simp [hz, Option.all]
  · rcases hsel4 with h | h | h | h
    · exact locate_case_some s f f.low hz (by rw [h]; decide)
        (by simp [selectBootFuse, h, lowFuse]) hb1 hb2 hb3
    · exact locate_case_some s f f.high hz (by rw [h]; decide)
        (by simp [selectBootFuse, h, lowFuse, highFuse]) hb1 hb2 hb3
    · exact locate_case_some s f f.ext hz (by rw [h]; decide)
        (by simp [selectBootFuse, h, lowFuse, highFuse, extFuse]) hb1 hb2 hb3
    · have hsel : selectBootFuse s.fuseWithBootloaderSize f = none := by
        simp [selectBootFuse, h, NO_FUSE, lowFuse, highFuse, extFuse]
      have hnone : locateBootloader s f = none := by
        simp [locateBootloader, hz, hsel]
      rw [hnone]
      simp [h, Option.all]

/-- C3 witness: the ATmega328P row with high fuse 0xDE satisfies the region
specification concretely. -/
theorem locate_region_witness :
    (locateBootloader atmega328P { low := 0, high := 0xDE, ext := 0, lock := 0, calibration := 0 }
        = none
      ↔ atmega328P.baseBootSize = 0 ∨ atmega328P.fuseWithBootloaderSize = NO_FUSE)
    ∧ (Option.all (fun r => (r.startAddress + r.length == atmega328P.flashSize)
        && (r.length == atmega328P.baseBootSize * bootMultiplier (bootFuseValue atmega328P
              { low := 0, high := 0xDE, ext := 0, lock := 0, calibration := 0 }))
        && (r.startAddress == atmega328P.flashSize - r.length))
        (locateBootloader atmega328P
          { low := 0, high := 0xDE, ext := 0, lock := 0, calibration := 0 })) = true :=
  locate_region_spec atmega328P (by decide)
    { low := 0, high := 0xDE, ext := 0, lock := 0, calibration := 0 }

/-- The database scan returns the first matching row. -/
theorem bootLookupGo_first_match (d : List Nat) :
    ∀ (l : List deviceDatabaseType) (i : Nat) (hi : i < l.length),
      (∀ e ∈ l.take i, e.md5sum ≠ d) → (l.get ⟨i, hi⟩).md5sum = d →
      bootLookupGo d l = some (l.get ⟨i, hi⟩).filename := by
  intro l
  induction l with
  | nil => intro i hi; simp at hi
  | cons e rest ih =>
    intro i hi hfirst hmatch
    cases i with
    | zero =>
      have hbe : (e.md5sum == d) = true := by simpa using hmatch
      simp [bootLookupGo, hbe]
    | succ n =>
      have he : e.md5sum ≠ d := hfirst e (by simp [List.take_succ_cons])
      have hbe : (e.md5sum == d) = false := by simpa using he
      have hrest := ih n (by simpa using hi)
        (fun x hx => hfirst x (by simp [List.take_succ_cons, hx]))
        (by simpa using hmatch)
      simpa [bootLookupGo, hbe] using hrest

/-- A digest matching no database row scans to the end and yields nothing. -/
theorem bootLookupGo_no_match (d : List Nat) :
    ∀ l : List deviceDatabaseType, (∀ e ∈ l, e.md5sum ≠ d) → bootLookupGo d l = none := by
  intro l
  induction l with
  | nil => intro _; rfl
  | cons e rest ih =>
    intro h
    have hbe : (e.md5sum == d) = false := by simpa using h e (by simp)
    simp [bootLookupGo, hbe, ih (fun x hx => h x (by simp [hx]))]

/-- C6: bootloader identification scans the digest database linearly and the
first exact 16-byte match wins; with allErased true the lookup is skipped
entirely and the no-bootloader report is produced; with allErased false and
no matching row the unknown-bootloader report is produced; and the digest
itself is reported in all cases. -/
theorem bootloader_identify_spec (d d2 d3 : List Nat) (i : Nat)
    (hi : i < deviceDatabaseList.length)
    (hfirst : ∀ e ∈ deviceDatabaseList.take i, e.md5sum ≠ d)
    (hmatch : (deviceDatabaseList.get ⟨i, hi⟩).md5sum = d)
    (hnone : ∀ e ∈ deviceDatabaseList, e.md5sum ≠ d2) :
    identifyBootloader true d3 = [Event.noBootloaderAllFF]
    ∧ identifyBootloader false d
        = [Event.bootName (deviceDatabaseList.get ⟨i, hi⟩).filename]
    ∧ identifyBootloader false d2 = [Event.md5Unknown]
    ∧ Event.digestReport d3 ∈ digestSectionEvents true d3
    ∧ Event.digestReport d3 ∈ digestSectionEvents false d3 := by
  refine ⟨rfl, ?_, ?_, by simp [digestSectionEvents], by simp [digestSectionEvents]⟩
  · simp [identifyBootloader,
      bootLookupGo_first_match d deviceDatabaseList i hi hfirst hmatch]
  · simp [identifyBootloader, bootLookupGo_no_match d2 deviceDatabaseList hnone]

set_option maxRecDepth 10000 in
/-- C6 witness: the first database row digest identifies as
ATmegaBOOT_168_atmega328, the empty digest matches nothing, and allErased
true short-circuits to the no-bootloader report. -/
theorem bootloader_identify_witness :
    identifyBootloader false
        [0x0A, 0xAC, 0xF7, 0x16, 0xF4, 0x3C, 0xA2, 0xC9, 0x27, 0x7E, 0x08, 0xB9, 0xD6, 0x90, 0xBC, 0x02]
      = [Event.bootName "ATmegaBOOT_168_atmega328"]
    ∧ identifyBootloader true [] = [Event.noBootloaderAllFF]
    ∧ identifyBootloader false [] = [Event.md5Unknown] := by
  have h := bootloader_identify_spec
    [0x0A, 0xAC, 0xF7, 0x16, 0xF4, 0x3C, 0xA2, 0xC9, 0x27, 0x7E, 0x08, 0xB9, 0xD6, 0x90, 0xBC, 0x02]
    [] [] 0 (by decide) (by simp) (by decide) (by decide)
  exact ⟨h.2.1, h.1, h.2.2.1⟩

/-- A signature matching no table row leaves foundSig at -1 and
currentSignature holding the last row copied. -/
theorem getSignatureGo_no_match (sig : List Nat) :
    ∀ (l : List signatureType) (j : Nat) (cur : signatureType),
      (∀ s ∈ l, sig ≠ s.sig) → getSignatureGo sig j cur l = (-1, l.getLastD cur) := by
  intro l
  induction l with
  | nil => intro j cur _; rfl
  | cons s rest ih =>
    intro j cur h
    have hbe : (sig == s.sig) = false := by simpa using h s (by simp)
    rw [List.getLastD_cons]
    simp [getSignatureGo, hbe, ih (j + 1) s (fun x hx => h x (by simp [hx]))]

set_option maxRecDepth 10000 in
/-- An unmatched signature scan ends at -1 with the last table row, the
ATmega8A entry, in currentSignature. -/
theorem getSignature_not_found (sig : List Nat)
    (h : sig ∉ signaturesList.map (fun s => s.sig)) :
    getSignature sig = (-1, atmega8A) := by
  have hall : ∀ s ∈ signaturesList, sig ≠ s.sig := by
    intro s hs heq
    exact h (by rw [heq]; exact List.mem_map_of_mem (fun s => s.sig) hs)
  rw [getSignature, getSignatureGo_no_match sig signaturesList 0 initialSignature hall]
  decide

/-- When the signature scan fails, the run emits no bootloader stage event. -/
theorem setup_skips_bootloader (env : Env)
    (hfound : (getSignature (readSig env)).1 = -1) :
    ((setupRun env).all fun e => !e.fromBootloaderStage) = true := by
  unfold setupRun
  by_cases hp : startProgramming env.resp
  · simp [hp, hfound, readProgram, Event.fromBootloaderStage]
  · simp [hp]

set_option maxRecDepth 10000 in
/-- For every table row index, scanning with that row signature returns
exactly that index and that row. -/
theorem getSignature_roundtrip :
    ∀ i : Fin signaturesList.length,
      getSignature (signaturesList.get i).sig = ((i.val : Int), signaturesList.get i) := by
  decide

/-- C7: looking up the signature of any table row returns exactly that row
and its index (first match of the linear scan); a signature matching no row
leaves foundSig at -1 and the bootloader-size-dependent stage is skipped for
the rest of the run. -/
theorem signature_roundtrip_spec (i : Fin signaturesList.length) (env : Env)
    (h : readSig env ∉ signaturesList.map (fun s => s.sig)) :
    getSignature (signaturesList.get i).sig = ((i.val : Int), signaturesList.get i)
    ∧ (getSignature (readSig env)).1 = -1
    ∧ ((setupRun env).all fun e => !e.fromBootloaderStage) = true := by
  have hnf := getSignature_not_found (readSig env) h
  exact ⟨getSignature_roundtrip i, by rw [hnf], setup_skips_bootloader env (by rw [hnf])⟩

set_option maxRecDepth 10000 in
/-- C7 witness: table row 0 round-trips, and the all-zero signature read by
envAck is unknown, so its run has no bootloader stage event. -/
theorem signature_roundtrip_witness :
    getSignature [0x1E, 0x91, 0x0B]
      = (0,
        { sig := [0x1E, 0x91, 0x0B], desc := "ATtiny24", flashSize := 2 * kb,
          baseBootSize := 0, pageSize := 32, fuseWithBootloaderSize := NO_FUSE })
    ∧ (getSignature (readSig envAck)).1 = -1
    ∧ ((setupRun envAck).all fun e => !e.fromBootloaderStage) = true := by
  have h := signature_roundtrip_spec ⟨0, by decide⟩ envAck (by decide)
  exact ⟨h.1, h.2.1, h.2.2⟩

/-- C10: an unrecognized signature leaves currentSignature equal to the last
table row, the ATmega8A entry, rather than cleared; only foundSig = -1
records the failure, and the guarded consumer of currentSignature, the
bootloader stage, does not run. -/
theorem unknown_signature_last_row (env : Env)
    (h : readSig env ∉ signaturesList.map (fun s => s.sig)) :
    (getSignature (readSig env)).1 = -1
    ∧ (getSignature (readSig env)).2 = atmega8A
    ∧ ((setupRun env).all fun e => !e.fromBootloaderStage) = true := by
  have hnf := getSignature_not_found (readSig env) h
  exact ⟨by rw [hnf], by rw [hnf], setup_skips_bootloader env (by rw [hnf])⟩

set_option maxRecDepth 10000 in
/-- C10 witness: after scanning the unknown all-zero signature the scan
result is foundSig -1 with the ATmega8A row in currentSignature. -/
theorem unknown_signature_witness :
    (getSignature [0, 0, 0]).1 = -1 ∧ (getSignature [0, 0, 0]).2 = atmega8A := by
  have h := unknown_signature_last_row envAck (by decide)
  exact ⟨h.1, h.2.1⟩

end AtmegaDetector
